import Mathlib

/-!
Shallow embedding of the contact-form backend (Go, `backend/main.go`,
newest revision): phone normalization, Twenty-CRM lead reconciliation
(`createTwentyLead`, `findOrCreateCompany`, `findOrCreatePerson`,
`createTwentyOpportunity`), notification composition
(`sendNotificationEmail`) and the HTTP handler (`handleContact`).

External calls (CRM GraphQL operations, the Mailgun send) are modelled by
an oracle environment fixing each call's outcome; every function returns
its result together with the trace of CRM calls it issued, so that
"call X was never attempted" is a statement about the trace.
-/

namespace Sogos

/-- JSON-like values used for GraphQL variables, mirroring the
`map[string]interface{}` payloads built in the Go source. -/
inductive GVal where
  | str (s : String)
  | obj (fields : List (String × GVal))
deriving Repr

/-- Function `normalizePhone` from the source: strip every non-digit character
(`regexp \D` on ASCII digits); fewer than 10 digits is unusable (empty
result); exactly 10 digits get the US prefix "+1"; 11 digits starting
with the trunk digit '1', and every other digit count, get a bare "+". -/
def normalizePhone (phone : String) : String :=
  if phone = "" then ""
  else
    let digits := phone.data.filter Char.isDigit
    if digits.length < 10 then ""
    else if digits.length = 10 then String.mk ('+' :: '1' :: digits)
    else if digits.length = 11 ∧ digits.head? = some '1' then String.mk ('+' :: digits)
    else String.mk ('+' :: digits)

/-- The digit-stripping step of `normalizePhone` (`re.ReplaceAllString(phone, "")`
for the pattern `\D`). -/
def stripNonDigits (s : String) : String :=
  String.mk (s.data.filter Char.isDigit)

/-- Struct `ContactRequest`: the decoded JSON submission. -/
structure ContactRequest where
  name : String
  company : String
  email : String
  phone : String
  message : String
  service : String
deriving Repr, DecidableEq

/-- Struct `LeadResult`: the IDs created in Twenty CRM. -/
structure LeadResult where
  personID : String
  companyID : String
  opportunityID : String
  isNewPerson : Bool
deriving Repr, DecidableEq

/-- A node of the company-search response (`id`, `name`). -/
structure CompanyNode where
  id : String
  name : String
deriving Repr, DecidableEq

/-- A node of the person-search response (`id`, `emails.primaryEmail`). -/
structure PersonNode where
  id : String
  primaryEmail : String
deriving Repr, DecidableEq

/-- One outbound CRM GraphQL call, recorded with the variables it carried. -/
inductive CrmCall where
  | companySearch (vars : GVal)
  | companyCreate (vars : GVal)
  | personSearch (vars : GVal)
  | personCreate (vars : GVal)
  | opportunityCreate (vars : GVal)
deriving Repr

/-- Oracle environment fixing the outcome of each CRM operation: `.ok`
bundles a successful transport, 200 status, no GraphQL errors and a
successful decode of `data`; `.error` is any of the failure modes
(transport, status, GraphQL error, decode failure), which the Go code
treats alike on each path. -/
structure CrmEnv where
  companySearchRes : Except String (List CompanyNode)
  companyCreateRes : Except String String
  personSearchRes : Except String (List PersonNode)
  personCreateRes : Except String String
  opportunityCreateRes : Except String String

/-- Variables of the company search: `{filter: {name: {ilike: "%"+name+"%"}}}`. -/
def companySearchVars (name : String) : GVal :=
  GVal.obj [("filter", GVal.obj [("name", GVal.obj [("ilike", GVal.str ("%" ++ name ++ "%"))])])]

/-- Variables of the person search: `{filter: {emails: {primaryEmail: {ilike: email}}}}`. -/
def personSearchVars (email : String) : GVal :=
  GVal.obj [("filter", GVal.obj [("emails", GVal.obj [("primaryEmail",
    GVal.obj [("ilike", GVal.str email)])])])]

/-- Field lookup in a `GVal` object. -/
def GVal.getField : GVal → String → Option GVal
  | GVal.obj fields, k =>
    match fields.find? (fun p => p.1 == k) with
    | some p => some p.2
    | none => none
  | GVal.str _, _ => none

/-- Follow a path of object keys and return the string found at its end. -/
def strAtPath : List String → GVal → Option String
  | [], GVal.str s => some s
  | [], GVal.obj _ => none
  | k :: ks, v =>
    match v.getField k with
    | some w => strAtPath ks w
    | none => none

/-- Function `findOrCreateCompany`: search by name (wildcard-wrapped `ilike`); on a
non-empty result take the first edge; otherwise (empty result, search
failure or decode failure) create a company with that name. -/
def findOrCreateCompany (env : CrmEnv) (name : String) :
    Except String String × List CrmCall :=
  match env.companySearchRes with
  | Except.ok (n :: _) => (Except.ok n.id, [CrmCall.companySearch (companySearchVars name)])
  | _ =>
    let createVars := GVal.obj [("input", GVal.obj [("name", GVal.str name)])]
    match env.companyCreateRes with
    | Except.ok id =>
      (Except.ok id, [CrmCall.companySearch (companySearchVars name), CrmCall.companyCreate createVars])
    | Except.error e =>
      (Except.error e, [CrmCall.companySearch (companySearchVars name), CrmCall.companyCreate createVars])

/-- The `input` map of the person-create mutation: name parts, primary
email, the normalized phone only when normalization produced one, and
the company id only when non-empty. -/
def personCreateInput (firstName lastName email phone companyID : String) : GVal :=
  GVal.obj
    ([("name", GVal.obj [("firstName", GVal.str firstName), ("lastName", GVal.str lastName)]),
      ("emails", GVal.obj [("primaryEmail", GVal.str email)])]
     ++ (if normalizePhone phone ≠ "" then
           [("phones", GVal.obj [("primaryPhoneNumber", GVal.str (normalizePhone phone))])]
         else [])
     ++ (if companyID ≠ "" then [("companyId", GVal.str companyID)] else []))

/-- Function `findOrCreatePerson`: search by primary email (`ilike` on the raw
email); on a non-empty result reuse the first edge's id with
`isNew = false` and no create call; otherwise create the person and
return its id with `isNew = true`. -/
def findOrCreatePerson (env : CrmEnv) (firstName lastName email phone companyID : String) :
    Except String (String × Bool) × List CrmCall :=
  match env.personSearchRes with
  | Except.ok (n :: _) => (Except.ok (n.id, false), [CrmCall.personSearch (personSearchVars email)])
  | _ =>
    let createVars := GVal.obj [("input", personCreateInput firstName lastName email phone companyID)]
    match env.personCreateRes with
    | Except.ok id =>
      (Except.ok (id, true),
       [CrmCall.personSearch (personSearchVars email), CrmCall.personCreate createVars])
    | Except.error e =>
      (Except.error e,
       [CrmCall.personSearch (personSearchVars email), CrmCall.personCreate createVars])

/-- Fields of the `input` map of the opportunity-create mutation: name,
fixed stage "NEW", and the optional `pointOfContactId` / `companyId`;
the message is not part of it. -/
def opportunityInputFields (name personID companyID : String) : List (String × GVal) :=
  [("name", GVal.str name), ("stage", GVal.str "NEW")]
  ++ (if personID ≠ "" then [("pointOfContactId", GVal.str personID)] else [])
  ++ (if companyID ≠ "" then [("companyId", GVal.str companyID)] else [])

/-- The `input` map of the opportunity-create mutation. -/
def opportunityInput (name personID companyID : String) : GVal :=
  GVal.obj (opportunityInputFields name personID companyID)

set_option linter.unusedVariables false in
/-- Function `createTwentyOpportunity`: one create mutation; the `message`
parameter is accepted but never placed into the variables. -/
def createTwentyOpportunity (env : CrmEnv)
    (name message personID companyID : String) :
    Except String String × List CrmCall :=
  let vars := GVal.obj [("input", opportunityInput name personID companyID)]
  match env.opportunityCreateRes with
  | Except.ok id => (Except.ok id, [CrmCall.opportunityCreate vars])
  | Except.error e => (Except.error e, [CrmCall.opportunityCreate vars])

/-- Whitespace trimming on both ends of a character list. -/
def trimChars (l : List Char) : List Char :=
  ((l.dropWhile Char.isWhitespace).reverse.dropWhile Char.isWhitespace).reverse

/-- Model of Go's `strings.TrimSpace` (restricted to ASCII whitespace). -/
def trimSpace (s : String) : String :=
  String.mk (trimChars s.data)

/-- Name splitting of `createTwentyLead`:
`strings.SplitN(strings.TrimSpace(name), " ", 2)` — everything up to the
first space is the first name, the remainder (possibly empty) the last
name. -/
def splitName (name : String) : String × String :=
  let t := (trimSpace name).data
  match t.dropWhile (fun c => c != ' ') with
  | [] => (String.mk (t.takeWhile (fun c => c != ' ')), "")
  | _ :: tail => (String.mk (t.takeWhile (fun c => c != ' ')), String.mk tail)

/-- Step 1 of `createTwentyLead`: company resolution, only when a company
name was supplied; a failure is logged and absorbed, leaving the company
id empty. -/
def companyStep (env : CrmEnv) (company : String) : String × List CrmCall :=
  if company ≠ "" then
    match findOrCreateCompany env company with
    | (Except.ok id, cs) => (id, cs)
    | (Except.error _, cs) => ("", cs)
  else ("", [])

/-- The opportunity name of step 3: "name - service", with the fallback
"name - Website Inquiry" when no service interest was supplied. -/
def opportunityName (name service : String) : String :=
  if service = "" then name ++ " - Website Inquiry"
  else name ++ " - " ++ service

/-- Function `createTwentyLead`: config guard, then company resolution (absorbed on
failure), person resolution (fatal on failure), opportunity creation
(fatal on failure). -/
def createTwentyLead (apiURL apiKey : String) (env : CrmEnv) (req : ContactRequest) :
    Except String LeadResult × List CrmCall :=
  if apiURL = "" ∨ apiKey = "" then (Except.error "twenty CRM configuration missing", [])
  else
    let firstName := (splitName req.name).1
    let lastName := (splitName req.name).2
    let companyID := (companyStep env req.company).1
    match findOrCreatePerson env firstName lastName req.email req.phone companyID with
    | (Except.error e, cs2) =>
      (Except.error ("failed to find/create person: " ++ e), (companyStep env req.company).2 ++ cs2)
    | (Except.ok (personID, isNew), cs2) =>
      match createTwentyOpportunity env (opportunityName req.name req.service)
          req.message personID companyID with
      | (Except.error e, cs3) =>
        (Except.error ("failed to create opportunity: " ++ e),
         (companyStep env req.company).2 ++ cs2 ++ cs3)
      | (Except.ok oid, cs3) =>
        (Except.ok ⟨personID, companyID, oid, isNew⟩,
         (companyStep env req.company).2 ++ cs2 ++ cs3)

/-- The CRM deep link appended to the notification body: built only when
a lead result exists and carries a non-empty opportunity id. -/
def crmLink (lead : Option LeadResult) (crmURL : String) : String :=
  match lead with
  | some l =>
    if l.opportunityID ≠ "" then
      "\n\n📊 View in CRM: " ++ crmURL ++ "/objects/opportunities/" ++ l.opportunityID
    else ""
  | none => ""

/-- The person-status line of the notification body: defaults to
"New contact", replaced by the returning-lead text only when a lead
result exists and its person was not newly created. -/
def personStatus (lead : Option LeadResult) : String :=
  match lead with
  | some l => if !l.isNewPerson then "Existing contact (returning lead)" else "New contact"
  | none => "New contact"

/-- The notification body built by `sendNotificationEmail`. -/
def emailBody (req : ContactRequest) (lead : Option LeadResult) (crmURL : String) : String :=
  "New lead from sogos.io website!\n\n👤 Contact Information\n━━━━━━━━━━━━━━━━━━━━\nName: "
    ++ req.name ++ "\nCompany: " ++ req.company ++ "\nEmail: " ++ req.email
    ++ "\nPhone: " ++ req.phone ++ "\nService Interest: " ++ req.service
    ++ "\nStatus: " ++ personStatus lead
    ++ "\n\n💬 Message\n━━━━━━━━━━━━━━━━━━━━\n" ++ req.message
    ++ "\n" ++ crmLink lead crmURL ++ "\n"

/-- The outbound Mailgun message. -/
structure EmailMessage where
  fromAddr : String
  subject : String
  body : String
  recipient : String
  replyTo : String
deriving Repr, DecidableEq

/-- Function `sendNotificationEmail`: fail when the Mailgun config is missing,
default the recipient, compose subject/body and hand the message to the
provider; `mgSendOk` is the oracle for the provider's send outcome. -/
def sendNotificationEmail (mailApiKey mailDomain recipientCfg crmURL : String)
    (mgSendOk : Bool) (req : ContactRequest) (lead : Option LeadResult) :
    Except String EmailMessage :=
  if mailApiKey = "" ∨ mailDomain = "" then Except.error "mailgun configuration missing"
  else
    let recipient := if recipientCfg = "" then "john@sogos.io" else recipientCfg
    let msg : EmailMessage :=
      { fromAddr := "Sogos CRM <noreply@" ++ mailDomain ++ ">"
        subject := "🎯 New Lead: " ++ req.name
        body := emailBody req lead crmURL
        recipient := recipient
        replyTo := req.email }
    if mgSendOk then Except.ok msg else Except.error "mailgun send failed"

/-- An HTTP response: either `http.Error`'s plain-text reply or a
`sendJSON` body `{success, message}`. -/
inductive HttpResponse where
  | plainText (status : Nat) (body : String)
  | json (status : Nat) (success : Bool) (message : String)
deriving Repr, DecidableEq

/-- What one run of the handler produced: the response, the CRM calls
that were issued, and the notification message when the send succeeded. -/
structure HandlerOutcome where
  resp : HttpResponse
  crmCalls : List CrmCall
  emailSent : Option EmailMessage

/-- Function `handleContact`: method check, JSON decode (`none` = decode failure),
required-field validation, CRM lead creation (result only logged),
notification send (the only failure surfaced to the caller). -/
def handleContact (method : String) (decoded : Option ContactRequest)
    (apiURL apiKey mailApiKey mailDomain recipientCfg : String)
    (env : CrmEnv) (mgSendOk : Bool) : HandlerOutcome :=
  if method ≠ "POST" then ⟨HttpResponse.plainText 405 "Method not allowed", [], none⟩
  else
    match decoded with
    | none => ⟨HttpResponse.json 400 false "Invalid request body", [], none⟩
    | some req =>
      if req.name = "" ∨ req.email = "" then
        ⟨HttpResponse.json 400 false "Name and email are required", [], none⟩
      else
        let crmStep := createTwentyLead apiURL apiKey env req
        let lead : Option LeadResult := crmStep.1.toOption
        match sendNotificationEmail mailApiKey mailDomain recipientCfg apiURL mgSendOk req lead with
        | Except.error _ =>
          ⟨HttpResponse.json 500 false "Failed to send message. Please try again later.",
           crmStep.2, none⟩
        | Except.ok msg =>
          ⟨HttpResponse.json 200 true "Thank you for reaching out. We'll be in touch within 24 hours.",
           crmStep.2, some msg⟩

/-- Validation predicate of `handleContact`: `req.Name == "" || req.Email == ""`
rejects; note there is no trimming here. -/
def passesValidation (req : ContactRequest) : Bool :=
  !(req.name == "" || req.email == "")

/-- A sample environment in which every CRM operation succeeds and both
searches come back empty. -/
def sampleEnv : CrmEnv :=
  { companySearchRes := Except.ok []
    companyCreateRes := Except.ok "c1"
    personSearchRes := Except.ok []
    personCreateRes := Except.ok "p1"
    opportunityCreateRes := Except.ok "o1" }

/-- A sample environment in which the person search finds a match. -/
def foundEnv : CrmEnv :=
  { companySearchRes := Except.ok []
    companyCreateRes := Except.ok "c1"
    personSearchRes := Except.ok [⟨"p9", "jane@x.com"⟩]
    personCreateRes := Except.ok "p1"
    opportunityCreateRes := Except.ok "o1" }

/-- A sample environment in which the company calls fail and the person
search comes back empty. -/
def companyFailEnv : CrmEnv :=
  { companySearchRes := Except.error "company search down"
    companyCreateRes := Except.error "company create down"
    personSearchRes := Except.ok []
    personCreateRes := Except.ok "p1"
    opportunityCreateRes := Except.ok "o1" }

/-- A sample environment in which the person search comes back empty and
the person create fails. -/
def personFailEnv : CrmEnv :=
  { companySearchRes := Except.ok []
    companyCreateRes := Except.ok "c1"
    personSearchRes := Except.ok []
    personCreateRes := Except.error "person create down"
    opportunityCreateRes := Except.ok "o1" }

/-- A sample submission. -/
def sampleReq : ContactRequest :=
  { name := "Jane Doe", company := "Acme", email := "jane@x.com",
    phone := "555-123-4567", message := "hi", service := "" }

/-- A submission whose name is whitespace only. -/
def blankNameReq : ContactRequest :=
  { name := " ", company := "", email := "jane@x.com",
    phone := "", message := "", service := "" }

/-! Helper lemmas. -/

/-- Data of a constructed string. -/
theorem data_mk (l : List Char) : (String.mk l).data = l := rfl

/-- A constructed non-empty string is not the empty string. -/
theorem mk_cons_ne_empty (c : Char) (t : List Char) : String.mk (c :: t) ≠ "" := by
  intro h
  have hd : c :: t = ([] : List Char) := congrArg String.data h
  exact absurd hd (List.cons_ne_nil c t)

/-- Filtering for digits is idempotent on character lists. -/
theorem filter_isDigit_idem (l : List Char) :
    (l.filter Char.isDigit).filter Char.isDigit = l.filter Char.isDigit := by
  induction l with
  | nil => rfl
  | cons c t ih =>
    by_cases hc : Char.isDigit c
    · simp [List.filter_cons, hc, ih]
    · simp [List.filter_cons, hc, ih]

/-- Branch-collapsed form of `normalizePhone`: the 11-digits-with-trunk-1
branch and the final branch return the same string, and the empty-input
guard coincides with the fewer-than-10-digits case. -/
theorem normalizePhone_eq (s : String) :
    normalizePhone s =
      if (s.data.filter Char.isDigit).length < 10 then ""
      else if (s.data.filter Char.isDigit).length = 10 then
        String.mk ('+' :: '1' :: s.data.filter Char.isDigit)
      else String.mk ('+' :: s.data.filter Char.isDigit) := by
  by_cases hs : s = ""
  · subst hs; rfl
  · unfold normalizePhone
    rw [if_neg hs]
    dsimp only
    rw [ite_self (String.mk ('+' :: s.data.filter Char.isDigit))]

/-- C5: phone normalization: fewer than 10 digits after stripping gives
the absent (empty) result; exactly 10 digits D give "+1"+D; exactly 11
digits starting with the trunk digit '1' give "+"+digits; otherwise
(11 or more digits) the result is "+"+digits; and "(555) 123-4567"
normalizes to "+15551234567". -/
theorem normalizePhone_spec (s : String) :
    ((stripNonDigits s).length < 10 → normalizePhone s = "") ∧
    ((stripNonDigits s).length = 10 → normalizePhone s = "+1" ++ stripNonDigits s) ∧
    ((stripNonDigits s).length = 11 → (stripNonDigits s).data.head? = some '1' →
      normalizePhone s = "+" ++ stripNonDigits s) ∧
    (11 ≤ (stripNonDigits s).length → normalizePhone s = "+" ++ stripNonDigits s) ∧
    normalizePhone "(555) 123-4567" = "+15551234567" := by
  have hlen : (stripNonDigits s).length = (s.data.filter Char.isDigit).length := rfl
  rw [normalizePhone_eq s]
  refine ⟨?_, ?_, ?_, ?_, by decide⟩
  · intro h
    rw [hlen] at h
    rw [if_pos h]
  · intro h
    rw [hlen] at h
    rw [if_neg (by omega), if_pos h]
    rfl
  · intro h _
    rw [hlen] at h
    rw [if_neg (by omega), if_neg (by omega)]
    rfl
  · intro h
    rw [hlen] at h
    rw [if_neg (by omega), if_neg (by omega)]
    rfl

/-- Witness for C5 at the concrete input "(555) 123-4567", which strips
to exactly 10 digits. -/
theorem normalizePhone_spec_witness :
    normalizePhone "(555) 123-4567" = "+1" ++ stripNonDigits "(555) 123-4567" :=
  (normalizePhone_spec "(555) 123-4567").2.1 (by decide)

/-- C9: phone normalization is idempotent: normalizing an already
normalized phone returns it unchanged. -/
theorem normalizePhone_idem (s : String) :
    normalizePhone (normalizePhone s) = normalizePhone s := by
  rw [normalizePhone_eq s]
  by_cases h10 : (s.data.filter Char.isDigit).length < 10
  · rw [if_pos h10]
    rfl
  · rw [if_neg h10]
    have hidem := filter_isDigit_idem s.data
    have hplus : Char.isDigit '+' = false := by decide
    have hone : Char.isDigit '1' = true := by decide
    by_cases heq : (s.data.filter Char.isDigit).length = 10
    · rw [if_pos heq]
      rw [normalizePhone_eq (String.mk ('+' :: '1' :: s.data.filter Char.isDigit))]
      have hd : (String.mk ('+' :: '1' :: s.data.filter Char.isDigit)).data.filter Char.isDigit
          = '1' :: s.data.filter Char.isDigit := by
        rw [data_mk]
        simp [List.filter_cons, hplus, hone, hidem]
      rw [hd]
      rw [if_neg (by simp [heq]), if_neg (by simp [heq])]
    · rw [if_neg heq]
      rw [normalizePhone_eq (String.mk ('+' :: s.data.filter Char.isDigit))]
      have hd : (String.mk ('+' :: s.data.filter Char.isDigit)).data.filter Char.isDigit
          = s.data.filter Char.isDigit := by
        rw [data_mk]
        simp [List.filter_cons, hplus, hidem]
      rw [hd]
      rw [if_neg h10, if_neg heq]

/-- C10: the opportunity-create request does not depend on the message:
two calls differing only in the message build the same result and the
same trace, and the input map carries only the keys name, stage,
pointOfContactId and companyId. -/
theorem createTwentyOpportunity_message_independent
    (env : CrmEnv) (name m1 m2 personID companyID : String) :
    createTwentyOpportunity env name m1 personID companyID
      = createTwentyOpportunity env name m2 personID companyID ∧
    (∀ k v, (k, v) ∈ opportunityInputFields name personID companyID →
      k ∈ (["name", "stage", "pointOfContactId", "companyId"] : List String)) := by
  constructor
  · rfl
  · intro k v h
    simp only [opportunityInputFields, List.mem_append] at h
    rcases h with (h | h) | h
    · simp only [List.mem_cons, List.not_mem_nil, or_false, Prod.mk.injEq] at h
      rcases h with ⟨h1, -⟩ | ⟨h1, -⟩ <;> simp [h1]
    · by_cases hp : personID ≠ ""
      · simp [hp, Prod.mk.injEq] at h
        simp [h.1]
      · simp [hp] at h
    · by_cases hc : companyID ≠ ""
      · simp [hc, Prod.mk.injEq] at h
        simp [h.1]
      · simp [hc] at h

/-- Witness for C10 at concrete arguments: two different messages give the
same call, and the key "name" of the input map is among the allowed keys. -/
theorem createTwentyOpportunity_message_independent_witness :
    createTwentyOpportunity sampleEnv "Jane Doe - Consulting" "msg one" "p1" "c1"
      = createTwentyOpportunity sampleEnv "Jane Doe - Consulting" "msg two" "p1" "c1" ∧
    "name" ∈ (["name", "stage", "pointOfContactId", "companyId"] : List String) :=
  ⟨(createTwentyOpportunity_message_independent sampleEnv "Jane Doe - Consulting"
      "msg one" "msg two" "p1" "c1").1,
   (createTwentyOpportunity_message_independent sampleEnv "Jane Doe - Consulting"
      "msg one" "msg two" "p1" "c1").2 "name" (GVal.str "Jane Doe - Consulting")
      (by simp [opportunityInputFields])⟩

/-- C4: when the person search returns at least one match, reconciliation
reuses the first matched person's id, marks the person as not new, and
issues no person-create call. -/
theorem findOrCreatePerson_reuses_match
    (env : CrmEnv) (firstName lastName email phone companyID : String)
    (n : PersonNode) (rest : List PersonNode)
    (h : env.personSearchRes = Except.ok (n :: rest)) :
    (findOrCreatePerson env firstName lastName email phone companyID).1
        = Except.ok (n.id, false) ∧
    ∀ v, CrmCall.personCreate v
        ∉ (findOrCreatePerson env firstName lastName email phone companyID).2 := by
  unfold findOrCreatePerson
  rw [h]
  constructor
  · rfl
  · intro v hv
    simp at hv

/-- Witness for C4: a concrete environment whose person search returns the
person "p9". -/
theorem findOrCreatePerson_reuses_match_witness :
    (findOrCreatePerson foundEnv "Jane" "Doe" "jane@x.com" "" "").1
        = Except.ok ("p9", false) ∧
    CrmCall.personCreate (GVal.str "x")
        ∉ (findOrCreatePerson foundEnv "Jane" "Doe" "jane@x.com" "" "").2 :=
  ⟨(findOrCreatePerson_reuses_match foundEnv "Jane" "Doe" "jane@x.com" "" ""
      ⟨"p9", "jane@x.com"⟩ [] rfl).1,
   (findOrCreatePerson_reuses_match foundEnv "Jane" "Doe" "jane@x.com" "" ""
      ⟨"p9", "jane@x.com"⟩ [] rfl).2 (GVal.str "x")⟩

/-- With no person-search match and a failing person create,
`findOrCreatePerson` returns the create error after issuing exactly the
search and the create calls. -/
theorem findOrCreatePerson_create_error
    (env : CrmEnv) (firstName lastName email phone companyID e : String)
    (hsearch : ∀ (n : PersonNode) (rest : List PersonNode),
        env.personSearchRes ≠ Except.ok (n :: rest))
    (hcreate : env.personCreateRes = Except.error e) :
    findOrCreatePerson env firstName lastName email phone companyID =
      (Except.error e,
       [CrmCall.personSearch (personSearchVars email),
        CrmCall.personCreate
          (GVal.obj [("input", personCreateInput firstName lastName email phone companyID)])]) := by
  unfold findOrCreatePerson
  cases hres : env.personSearchRes with
  | ok lst =>
    cases lst with
    | nil => rw [hcreate]
    | cons n rest => exact absurd hres (hsearch n rest)
  | error err => rw [hcreate]

/-- The company-resolution step never issues an opportunity-create call. -/
theorem companyStep_no_opportunityCreate (env : CrmEnv) (company : String) (v : GVal) :
    CrmCall.opportunityCreate v ∉ (companyStep env company).2 := by
  unfold companyStep findOrCreateCompany
  by_cases hcomp : company ≠ ""
  · rw [if_pos hcomp]
    cases env.companySearchRes with
    | ok lst =>
      cases lst with
      | nil => cases env.companyCreateRes <;> simp
      | cons n rest => simp
    | error err => cases env.companyCreateRes <;> simp
  · rw [if_neg hcomp]
    simp

/-- C3: when the person search finds no existing match and the person
create fails, reconciliation returns a fatal error (no LeadOutcome) and
the opportunity-create call is never attempted. -/
theorem createTwentyLead_person_failure_fatal
    (apiURL apiKey : String) (env : CrmEnv) (req : ContactRequest) (e : String)
    (hurl : apiURL ≠ "") (hkey : apiKey ≠ "")
    (hsearch : ∀ (n : PersonNode) (rest : List PersonNode),
        env.personSearchRes ≠ Except.ok (n :: rest))
    (hcreate : env.personCreateRes = Except.error e) :
    (createTwentyLead apiURL apiKey env req).1
        = Except.error ("failed to find/create person: " ++ e) ∧
    ∀ v, CrmCall.opportunityCreate v ∉ (createTwentyLead apiURL apiKey env req).2 := by
  unfold createTwentyLead
  rw [if_neg (not_or.mpr ⟨hurl, hkey⟩)]
  dsimp only
  rw [findOrCreatePerson_create_error env (splitName req.name).1 (splitName req.name).2
    req.email req.phone (companyStep env req.company).1 e hsearch hcreate]
  constructor
  · rfl
  · intro v hv
    simp only [List.mem_append, List.mem_cons, List.not_mem_nil, or_false] at hv
    rcases hv with hv | hv | hv
    · exact companyStep_no_opportunityCreate env req.company v hv
    · exact CrmCall.noConfusion hv
    · exact CrmCall.noConfusion hv

/-- Witness for C3: in a concrete environment with an empty person search
and a failing person create, the lead creation fails and no opportunity
call appears in the trace. -/
theorem createTwentyLead_person_failure_fatal_witness :
    (createTwentyLead "https://crm" "key" personFailEnv sampleReq).1
        = Except.error ("failed to find/create person: " ++ "person create down") ∧
    CrmCall.opportunityCreate (GVal.str "x")
        ∉ (createTwentyLead "https://crm" "key" personFailEnv sampleReq).2 :=
  ⟨(createTwentyLead_person_failure_fatal "https://crm" "key" personFailEnv sampleReq
      "person create down" (by decide) (by decide)
      (fun n rest h => by simp [personFailEnv] at h) rfl).1,
   (createTwentyLead_person_failure_fatal "https://crm" "key" personFailEnv sampleReq
      "person create down" (by decide) (by decide)
      (fun n rest h => by simp [personFailEnv] at h) rfl).2 (GVal.str "x")⟩

/-- When both the company search and the company create fail, the company
step absorbs the failure and yields an empty company id. -/
theorem companyStep_both_fail (env : CrmEnv) (company es ec : String)
    (hcomp : company ≠ "")
    (hcs : env.companySearchRes = Except.error es)
    (hcc : env.companyCreateRes = Except.error ec) :
    (companyStep env company).1 = "" := by
  unfold companyStep findOrCreateCompany
  rw [if_pos hcomp, hcs, hcc]

/-- C2: with a non-empty company name, a failure of both the company
search and the company create does not abort reconciliation: given the
person step and the opportunity create succeed with non-empty ids, the
lead outcome has an empty companyId and non-empty personId and
opportunityId. -/
theorem createTwentyLead_company_failure_tolerated
    (apiURL apiKey : String) (env : CrmEnv) (req : ContactRequest)
    (es ec pid oid : String) (b : Bool)
    (hurl : apiURL ≠ "") (hkey : apiKey ≠ "")
    (hcompany : req.company ≠ "")
    (hcs : env.companySearchRes = Except.error es)
    (hcc : env.companyCreateRes = Except.error ec)
    (hperson : (findOrCreatePerson env (splitName req.name).1 (splitName req.name).2
        req.email req.phone "").1 = Except.ok (pid, b))
    (hpid : pid ≠ "")
    (hopp : env.opportunityCreateRes = Except.ok oid)
    (hoid : oid ≠ "") :
    ∃ r : LeadResult, (createTwentyLead apiURL apiKey env req).1 = Except.ok r ∧
      r.companyID = "" ∧ r.personID ≠ "" ∧ r.opportunityID ≠ "" := by
  have hcid : (companyStep env req.company).1 = "" :=
    companyStep_both_fail env req.company es ec hcompany hcs hcc
  unfold createTwentyLead
  rw [if_neg (not_or.mpr ⟨hurl, hkey⟩)]
  dsimp only
  rw [hcid]
  rcases hfp : findOrCreatePerson env (splitName req.name).1 (splitName req.name).2
      req.email req.phone "" with ⟨res, tr⟩
  rw [hfp] at hperson
  dsimp only at hperson
  subst hperson
  unfold createTwentyOpportunity
  rw [hopp]
  exact ⟨⟨pid, "", oid, b⟩, rfl, rfl, hpid, hoid⟩

/-- Witness for C2: a concrete environment where both company calls fail
while the person create and the opportunity create succeed. -/
theorem createTwentyLead_company_failure_tolerated_witness :
    ∃ r : LeadResult,
      (createTwentyLead "https://crm" "key" companyFailEnv sampleReq).1 = Except.ok r ∧
      r.companyID = "" ∧ r.personID ≠ "" ∧ r.opportunityID ≠ "" :=
  createTwentyLead_company_failure_tolerated "https://crm" "key" companyFailEnv sampleReq
    "company search down" "company create down" "p1" "o1" true
    (by decide) (by decide) (by decide) rfl rfl rfl (by decide) rfl (by decide)

/-- The notification send fails exactly when the Mailgun config is
missing or the provider send fails; the composed content (and hence the
lead outcome) plays no role. -/
theorem sendNotificationEmail_error_iff
    (mailApiKey mailDomain recipientCfg crmURL : String) (mgSendOk : Bool)
    (req : ContactRequest) (lead : Option LeadResult) :
    (∃ e, sendNotificationEmail mailApiKey mailDomain recipientCfg crmURL mgSendOk req lead
        = Except.error e)
      ↔ (mailApiKey = "" ∨ mailDomain = "" ∨ mgSendOk = false) := by
  unfold sendNotificationEmail
  by_cases hcfg : mailApiKey = "" ∨ mailDomain = ""
  · rw [if_pos hcfg]
    rcases hcfg with h | h <;> simp [h]
  · rw [if_neg hcfg]
    rcases not_or.mp hcfg with ⟨h1, h2⟩
    cases mgSendOk <;> simp [h1, h2]

/-- C1: for a validly parsed and validated submission, the HTTP response
is the same across any two CRM environments, and it is the internal-error
response exactly when the notification send fails. -/
theorem handleContact_response_email_only
    (req : ContactRequest)
    (apiURL apiKey mailApiKey mailDomain recipientCfg : String)
    (env1 env2 : CrmEnv) (mgSendOk : Bool)
    (hname : req.name ≠ "") (hemail : req.email ≠ "") :
    (handleContact "POST" (some req) apiURL apiKey mailApiKey mailDomain recipientCfg
        env1 mgSendOk).resp
      = (handleContact "POST" (some req) apiURL apiKey mailApiKey mailDomain recipientCfg
        env2 mgSendOk).resp ∧
    ((handleContact "POST" (some req) apiURL apiKey mailApiKey mailDomain recipientCfg
        env1 mgSendOk).resp
        = HttpResponse.json 500 false "Failed to send message. Please try again later."
      ↔ ∃ e, sendNotificationEmail mailApiKey mailDomain recipientCfg apiURL mgSendOk req
          ((createTwentyLead apiURL apiKey env1 req).1.toOption) = Except.error e) := by
  have hval : ¬(req.name = "" ∨ req.email = "") := not_or.mpr ⟨hname, hemail⟩
  have hpost : ¬(("POST" : String) ≠ "POST") := by simp
  unfold handleContact
  simp only [if_neg hpost, if_neg hval]
  by_cases hfail : mailApiKey = "" ∨ mailDomain = "" ∨ mgSendOk = false
  · obtain ⟨e1, he1⟩ := (sendNotificationEmail_error_iff mailApiKey mailDomain recipientCfg
      apiURL mgSendOk req ((createTwentyLead apiURL apiKey env1 req).1.toOption)).mpr hfail
    obtain ⟨e2, he2⟩ := (sendNotificationEmail_error_iff mailApiKey mailDomain recipientCfg
      apiURL mgSendOk req ((createTwentyLead apiURL apiKey env2 req).1.toOption)).mpr hfail
    rw [he1, he2]
    exact ⟨rfl, fun _ => ⟨e1, rfl⟩, fun _ => rfl⟩
  · rcases hs1 : sendNotificationEmail mailApiKey mailDomain recipientCfg apiURL mgSendOk req
        ((createTwentyLead apiURL apiKey env1 req).1.toOption) with e1 | m1
    · exact absurd ((sendNotificationEmail_error_iff mailApiKey mailDomain recipientCfg
        apiURL mgSendOk req ((createTwentyLead apiURL apiKey env1 req).1.toOption)).mp
          ⟨e1, hs1⟩) hfail
    · rcases hs2 : sendNotificationEmail mailApiKey mailDomain recipientCfg apiURL mgSendOk req
          ((createTwentyLead apiURL apiKey env2 req).1.toOption) with e2 | m2
      · exact absurd ((sendNotificationEmail_error_iff mailApiKey mailDomain recipientCfg
          apiURL mgSendOk req ((createTwentyLead apiURL apiKey env2 req).1.toOption)).mp
            ⟨e2, hs2⟩) hfail
      · refine ⟨rfl, ?_⟩
        simp

/-- Witness for C1: with a total-success environment and a
company-failure environment, the concrete responses agree and the
success/error equivalence holds. -/
theorem handleContact_response_email_only_witness :
    (handleContact "POST" (some sampleReq) "https://crm" "key" "mk" "md" ""
        sampleEnv true).resp
      = (handleContact "POST" (some sampleReq) "https://crm" "key" "mk" "md" ""
        companyFailEnv true).resp ∧
    ((handleContact "POST" (some sampleReq) "https://crm" "key" "mk" "md" ""
        sampleEnv true).resp
        = HttpResponse.json 500 false "Failed to send message. Please try again later."
      ↔ ∃ e, sendNotificationEmail "mk" "md" "" "https://crm" true sampleReq
          ((createTwentyLead "https://crm" "key" sampleEnv sampleReq).1.toOption)
            = Except.error e) :=
  handleContact_response_email_only sampleReq "https://crm" "key" "mk" "md" ""
    sampleEnv companyFailEnv true (by decide) (by decide)

/-- C7 counterexample: the whitespace-only name " " is empty after
trimming yet passes validation, the handler issues CRM calls for it, and
the response is not the validation error. -/
theorem validation_trim_counterexample :
    trimSpace blankNameReq.name = "" ∧
    passesValidation blankNameReq = true ∧
    (handleContact "POST" (some blankNameReq) "https://crm" "key" "mk" "md" ""
        sampleEnv true).crmCalls.length = 3 ∧
    (handleContact "POST" (some blankNameReq) "https://crm" "key" "mk" "md" ""
        sampleEnv true).resp ≠ HttpResponse.json 400 false "Name and email are required" := by
  refine ⟨by decide, rfl, rfl, by decide⟩

/-- C7 amended: validation compares name and email against the empty
string without trimming: it rejects exactly the submissions whose name
or email is the empty string, and a rejected submission gets the
validation-error response with no CRM call and no email message. -/
theorem validation_rejects_exactly_empty
    (req : ContactRequest) (apiURL apiKey mailApiKey mailDomain recipientCfg : String)
    (env : CrmEnv) (mgSendOk : Bool) :
    (passesValidation req = false ↔ (req.name = "" ∨ req.email = "")) ∧
    ((req.name = "" ∨ req.email = "") →
      handleContact "POST" (some req) apiURL apiKey mailApiKey mailDomain recipientCfg env mgSendOk
        = ⟨HttpResponse.json 400 false "Name and email are required", [], none⟩) := by
  constructor
  · simp only [passesValidation, Bool.not_eq_false', Bool.or_eq_true, beq_iff_eq]
  · intro h
    unfold handleContact
    rw [if_neg (by simp : ¬(("POST" : String) ≠ "POST"))]
    dsimp only
    rw [if_pos h]

/-- Witness for the amended C7 at a concrete empty-name submission. -/
theorem validation_rejects_exactly_empty_witness :
    handleContact "POST"
        (some { name := "", company := "", email := "jane@x.com",
                phone := "", message := "", service := "" })
        "https://crm" "key" "mk" "md" "" sampleEnv true
      = ⟨HttpResponse.json 400 false "Name and email are required", [], none⟩ :=
  (validation_rejects_exactly_empty
    { name := "", company := "", email := "jane@x.com",
      phone := "", message := "", service := "" }
    "https://crm" "key" "mk" "md" "" sampleEnv true).2 (Or.inl rfl)

/-- C6 counterexample: for the concrete email "jane@x.com" the person
search issues an ilike pattern equal to the raw email, which is not the
wildcard-wrapped pattern that the company search would build from the
same string. -/
theorem personSearch_pattern_counterexample :
    (findOrCreatePerson sampleEnv "Jane" "Doe" "jane@x.com" "" "").2.head?
        = some (CrmCall.personSearch (personSearchVars "jane@x.com")) ∧
    strAtPath ["filter", "emails", "primaryEmail", "ilike"] (personSearchVars "jane@x.com")
        = some "jane@x.com" ∧
    some "jane@x.com" ≠ some ("%" ++ "jane@x.com" ++ "%") ∧
    strAtPath ["filter", "name", "ilike"] (companySearchVars "jane@x.com")
        = some ("%" ++ "jane@x.com" ++ "%") :=
  ⟨rfl, by decide, by decide, by decide⟩

/-- C6 amended: the person search always issues an ilike filter whose
pattern is the supplied email itself, with no wildcard wrapping, unlike
the company search, whose pattern wraps the supplied name in "%". -/
theorem search_patterns (env : CrmEnv) (firstName lastName email phone companyID name : String) :
    (findOrCreatePerson env firstName lastName email phone companyID).2.head?
        = some (CrmCall.personSearch (personSearchVars email)) ∧
    strAtPath ["filter", "emails", "primaryEmail", "ilike"] (personSearchVars email)
        = some email ∧
    (findOrCreateCompany env name).2.head?
        = some (CrmCall.companySearch (companySearchVars name)) ∧
    strAtPath ["filter", "name", "ilike"] (companySearchVars name)
        = some ("%" ++ name ++ "%") := by
  refine ⟨?_, rfl, ?_, rfl⟩
  · unfold findOrCreatePerson
    cases env.personSearchRes with
    | ok lst =>
      cases lst with
      | nil => cases env.personCreateRes <;> rfl
      | cons n rest => rfl
    | error err => cases env.personCreateRes <;> rfl
  · unfold findOrCreateCompany
    cases env.companySearchRes with
    | ok lst =>
      cases lst with
      | nil => cases env.companyCreateRes <;> rfl
      | cons n rest => rfl
    | error err => cases env.companyCreateRes <;> rfl

/-- C8 counterexample: with the lead outcome entirely absent the composed
notification still asserts the specific status "New contact" — the same
body as for a newly created person without an opportunity id. -/
theorem notification_absent_status_counterexample :
    personStatus none = "New contact" ∧
    emailBody sampleReq none "https://crm"
      = emailBody sampleReq (some ⟨"p1", "", "", true⟩) "https://crm" :=
  ⟨rfl, rfl⟩

/-- C8 amended: when the lead outcome is absent the deep link is omitted
and the status line falls back to the default "New contact" (it does not
distinguish new from existing); the deep link is non-empty exactly when
a lead with a non-empty opportunityId is present. -/
theorem notification_absent_lead (crmURL : String) (lead : Option LeadResult) :
    crmLink none crmURL = "" ∧
    personStatus none = "New contact" ∧
    (crmLink lead crmURL ≠ "" ↔ ∃ l, lead = some l ∧ l.opportunityID ≠ "") := by
  refine ⟨rfl, rfl, ?_⟩
  cases lead with
  | none => simp [crmLink]
  | some l =>
    by_cases h : l.opportunityID = ""
    · simp [crmLink, h]
    · have hlen : 0 < ("\n\n📊 View in CRM: " : String).length := by decide
      have hne : ("\n\n📊 View in CRM: " ++ crmURL ++ "/objects/opportunities/"
          ++ l.opportunityID) ≠ "" := by
        intro hemp
        have hl := congrArg String.length hemp
        rw [String.length_append, String.length_append, String.length_append] at hl
        rw [String.length_empty] at hl
        omega
      simp only [crmLink, h, ne_eq, not_false_eq_true, if_true, ite_not]
      constructor
      · intro _
        exact ⟨l, rfl, h⟩
      · intro _ hemp
        exact hne hemp

end Sogos
